import Mathlib

/-!
A shallow embedding of the WebGL batching renderer core of the sol-engine
repository (`src/gfx/webgl/VertBuffer.js`, `src/gfx/webgl/TextureCache.js`,
`src/gfx/webgl/WebGLRenderer.js`, `src/texture/Texture.js`,
`src/texture/TextureFactory.js`, `src/gfx/GfxManagerConfig.js`,
`src/gfx/webgl/util/parseShader.js`, `src/math/clamp.js`), together with
theorems about its batching, flushing, texture-binding, destruction,
configuration and shader-generation behaviour.

Modelling conventions:
* JavaScript numbers are modelled as `ℚ` where real arithmetic is performed
  (vertex coordinates, UV coordinates, texture sizes, configuration values);
  counters and indices that only ever hold small non-negative integers
  (buffer offsets, texture-unit pointers) are modelled as `ℕ`.
* Mutable JavaScript objects reachable from several places (the `Texture`
  records) are modelled by a store (`List Texture`) indexed by texture ids;
  an update to a texture is an update of the store.
* GPU (WebGL) calls are modelled by an append-only event log (`GLEvent`);
  `gl.drawArrays` events in the log are the draw calls of a frame.
* Vertex data lives in a fixed-size typed array written at index `_offset`;
  the model keeps the written prefix of the array as a list.  An
  out-of-bounds typed-array write is silently dropped in JavaScript, and the
  model drops it too, while still advancing the offset exactly as the code
  does.
* `VertBuffer.flush` also calls `MVPMatrix.update`; the MVP matrix is not
  modelled because no claim depends on it and it issues no draw call.
-/

namespace Sol

/-- A canvas image source held by a texture: either a closable `ImageBitmap`
or a plain image element (`TextureFactory.canvasCloseTexture` can record
either).  Identified by an id. -/
inductive CImg where
  | bitmap (id : Nat)
  | image (id : Nat)
  deriving Repr, DecidableEq

/-- The `Texture` record from `src/texture/Texture.js` (with the `loaded` and
`missing` flags inherited from `src/asset/Asset.js`; their getters/setters are
plain field accesses).  WebGL texture handles are modelled as `Option Nat`
(`none` is JavaScript `null`). -/
structure Texture where
  loaded : Bool
  missing : Bool
  width : ℚ
  height : ℚ
  glTex : Option Nat
  glBound : Bool
  glUnit : Nat
  canvasImg : Option CImg
  canvasCropScaleX : ℚ
  canvasCropScaleY : ℚ
  deriving Repr, DecidableEq

/-- The field values set by the `Texture` constructor (`new Texture()`). -/
def Texture.init : Texture :=
  { loaded := false
    missing := false
    width := 1
    height := 1
    glTex := none
    glBound := false
    glUnit := 0
    canvasImg := none
    canvasCropScaleX := 1
    canvasCropScaleY := 1 }

instance : Inhabited Texture := ⟨Texture.init⟩

/-- A logged WebGL call.  Only the calls that the verified claims observe are
logged: texture-unit activation, texture binding/deletion, vertex-data upload,
draw calls, and `ImageBitmap.close`. -/
inductive GLEvent where
  | activeTexture (unit : Nat)
  | bindTexture (tex : Option Nat)
  | deleteTexture (tex : Option Nat)
  | bufferSubData (bytes : Nat)
  | drawArrays (count : Nat)
  | closeBitmap (id : Nat)
  deriving Repr, DecidableEq

/-- One vertex as written by `VertBuffer.pushVert`: two position floats, the
texture ID float, two UV floats and a packed 32-bit colour. -/
structure Vert where
  x : ℚ
  y : ℚ
  id : ℚ
  u : ℚ
  v : ℚ
  tint : Nat
  deriving Repr, DecidableEq

/-- The combined mutable state of the WebGL renderer core: the texture store,
the factory's restore register (`TextureFactory.glReturnTex/glReturnUnit`),
the vertex buffer (`VertBuffer`), the texture cache (`TextureCache`) and the
log of WebGL calls. -/
structure RState where
  /-- All texture records, indexed by texture id. -/
  store : List Texture
  /-- `TextureFactory.glReturnTex`. -/
  glReturnTex : Option Nat
  /-- `TextureFactory.glReturnUnit`. -/
  glReturnUnit : Nat
  /-- `VertBuffer._MAX_VERTS`. -/
  maxVerts : Nat
  /-- `VertBuffer._offset` (in vertices). -/
  offset : Nat
  /-- The written prefix of `VertBuffer._vertData`. -/
  verts : List Vert
  /-- `TextureCache._MAX_TEXTURES`. -/
  maxTextures : Nat
  /-- `TextureCache._pointer`. -/
  pointer : Nat
  /-- `TextureCache._boundTextures`, as texture ids into `store`. -/
  boundTextures : List Nat
  /-- `TextureCache.id` — the applied texture's unit. -/
  id : Nat
  /-- `TextureCache.width` — the applied texture's width. -/
  width : ℚ
  /-- `TextureCache.height` — the applied texture's height. -/
  height : ℚ
  /-- The log of WebGL calls made so far. -/
  events : List GLEvent
  deriving Repr, DecidableEq

namespace RState

/-- Dereference a texture id. -/
def getTex (s : RState) (t : Nat) : Texture := s.store.getD t Texture.init

/-- Overwrite the texture record with id `t`. -/
def setTex (s : RState) (t : Nat) (tex : Texture) : RState :=
  { s with store := s.store.set t tex }

/-- `VertBuffer.pushVert(x, y, id, u, v, tint)`: write one vertex's
components at the current offset (a typed-array write, dropped when out of
bounds) and advance the offset. -/
def pushVert (s : RState) (x y id u v : ℚ) (tint : Nat) : RState :=
  { s with
    verts :=
      if s.offset < s.maxVerts then
        s.verts ++ [⟨x, y, id, u, v, tint % 2 ^ 32⟩]
      else
        s.verts
    offset := s.offset + 1 }

/-- `VertBuffer.flush()`: upload the written bytes (`offset * 24`), issue one
`drawArrays` call for `offset` vertices, and reset the offset.  (The matrix
update `this._mvp.update()` is not modelled; see the header comment.) -/
def vbFlush (s : RState) : RState :=
  { s with
    events := s.events ++
      [GLEvent.bufferSubData (s.offset * 24), GLEvent.drawArrays s.offset]
    offset := 0
    verts := [] }

/-- The six vertices emitted by `VertBuffer.pushQuad` for one quad, in push
order: triangle 1 is (l,t) (l,b) (r,t), triangle 2 is (r,t) (l,b) (r,b). -/
def quadVerts (l t r b id cl ct cr cb : ℚ) (tint : Nat) : List Vert :=
  [⟨l, t, id, cl, ct, tint % 2 ^ 32⟩,
   ⟨l, b, id, cl, cb, tint % 2 ^ 32⟩,
   ⟨r, t, id, cr, ct, tint % 2 ^ 32⟩,
   ⟨r, t, id, cr, ct, tint % 2 ^ 32⟩,
   ⟨l, b, id, cl, cb, tint % 2 ^ 32⟩,
   ⟨r, b, id, cr, cb, tint % 2 ^ 32⟩]

/-- `VertBuffer.pushQuad(l, t, r, b, id, cl, ct, cr, cb, tint)`: flush first
if appending six vertices would exceed the capacity, then push the two
triangles. -/
def pushQuad (s : RState) (l t r b id cl ct cr cb : ℚ) (tint : Nat) : RState :=
  let s := if s.offset + 6 > s.maxVerts then s.vbFlush else s
  let s := s.pushVert l t id cl ct tint
  let s := s.pushVert l b id cl cb tint
  let s := s.pushVert r t id cr ct tint
  let s := s.pushVert r t id cr ct tint
  let s := s.pushVert l b id cl cb tint
  s.pushVert r b id cr cb tint

/-- The loop body of `TextureCache.flush`: set `glBound = false` on each
texture in the bound array. -/
def unbindAll (store : List Texture) (ids : List Nat) : List Texture :=
  ids.foldl
    (fun st u => st.set u { st.getD u Texture.init with glBound := false })
    store

/-- `TextureCache.flush()`: flush the vertex buffer, then pseudo-unbind the
first `_MAX_TEXTURES` bound textures and reset the pointer. -/
def cacheFlush (s : RState) : RState :=
  let s := s.vbFlush
  { s with
    store := unbindAll s.store (s.boundTextures.take s.maxTextures)
    pointer := 0 }

/-- `TextureCache.applyTexture(texture)`: on a cache hit (`texture.glBound`)
just copy the texture's unit/width/height into the cache snapshot; otherwise
flush when the pointer has reached `_MAX_TEXTURES`, then bind the texture to
the unit at the pointer, record it, update the factory's restore register and
advance the pointer. -/
def applyTexture (s : RState) (t : Nat) : RState :=
  let tex := s.getTex t
  if tex.glBound then
    { s with id := tex.glUnit, width := tex.width, height := tex.height }
  else
    let s := if s.pointer ≥ s.maxTextures then s.cacheFlush else s
    let p := s.pointer
    let tex := s.getTex t
    let s :=
      { s with
        events := s.events ++
          [GLEvent.activeTexture p, GLEvent.bindTexture tex.glTex]
        glReturnUnit := p
        glReturnTex := tex.glTex }
    let s := s.setTex t { tex with glUnit := p, glBound := true }
    let s := { s with boundTextures := s.boundTextures.set p t }
    { s with pointer := p + 1 }

/-- `WebGLRenderer.drawTexture(x, y, w, h, cx, cy, cw, ch)`: convert the crop
rectangle to UV coordinates using the cache's applied-texture size and push
one quad with the cache's applied unit and a white tint. -/
def drawTexture (s : RState) (x y w h cx cy cw ch : ℚ) : RState :=
  let w := w + x
  let h := h + y
  let cw := (cw + cx) / s.width
  let ch := (ch + cy) / s.height
  let cx := cx / s.width
  let cy := cy / s.height
  s.pushQuad x y w h (s.id : ℚ) cx cy cw ch 0xFFFFFFFF

/-- `WebGLRenderer.onPostDraw()`: the end-of-frame flush of the vertex
buffer. -/
def onPostDraw (s : RState) : RState := s.vbFlush

/-- Whether a logged WebGL call is a draw call. -/
def GLEvent.isDraw : GLEvent → Bool
  | GLEvent.drawArrays _ => true
  | _ => false

/-- The number of draw calls issued so far. -/
def drawCalls (s : RState) : Nat := (s.events.filter GLEvent.isDraw).length

end RState

/-- `src/math/clamp.js`: `Math.min(max, Math.max(min, value))`. -/
def clamp (value lo hi : ℚ) : ℚ := min hi (max lo value)

/-- The options relevant to the graphics limits, as an options object for
`GfxManagerConfig`: a field that is absent from the object is `none`
(`getDefault` then supplies the documented default). -/
structure GfxOptions where
  glMaxTextures : Option ℚ := none
  glMaxVerts : Option ℚ := none
  deriving Repr, DecidableEq

/-- The two resource limits computed by the `GfxManagerConfig` constructor
(`src/gfx/GfxManagerConfig.js`):
`glMaxTextures = clamp(getDefault(options, "glMaxTextures", 32), 1, 32)` and
`glMaxVerts = clamp(getDefault(options, "glMaxVerts", 16384), 6, 65536)`. -/
structure GfxManagerConfig where
  glMaxTextures : ℚ
  glMaxVerts : ℚ
  deriving Repr, DecidableEq

/-- The `GfxManagerConfig` constructor, restricted to the two limits. -/
def mkGfxManagerConfig (options : GfxOptions) : GfxManagerConfig :=
  { glMaxTextures := clamp (options.glMaxTextures.getD 32) 1 32
    glMaxVerts := clamp (options.glMaxVerts.getD 16384) 6 65536 }

/-- The runtime reduction in the `WebGLRenderer` constructor:
`maxTextures = clamp(gl.getParameter(gl.MAX_TEXTURE_IMAGE_UNITS), 1,
maxTextures)`, where `host` is the host GPU's unit count. -/
def rendererMaxTextures (host maxTextures : ℚ) : ℚ :=
  clamp host 1 maxTextures

/-- The factory-level restore register of `TextureFactory`
(`glReturnTex`/`glReturnUnit`). -/
structure FactoryState where
  glReturnTex : Option Nat
  glReturnUnit : Nat
  deriving Repr, DecidableEq

/-- The result of `TextureFactory.destroyTexture`: the updated factory
register, the destroyed texture record, and the WebGL calls made. -/
structure DestroyResult where
  factory : FactoryState
  texture : Texture
  events : List GLEvent
  deriving Repr, DecidableEq

/-- `TextureFactory.destroyTexture(gl, texture)` with `gl` the presence of a
WebGL context: clear the flags; when a context is present, unbind the
texture's unit, delete the handle, then either null the restore register
(when it held the deleted handle) or re-bind the registered handle, and
re-activate the registered unit; close a closable bitmap; reset every field
to its default. -/
def destroyTexture (gl : Bool) (f : FactoryState) (tex : Texture) :
    DestroyResult :=
  let tex := { tex with loaded := false, missing := false }
  let fe : FactoryState × List GLEvent :=
    if gl then
      let evs := [GLEvent.activeTexture tex.glUnit, GLEvent.bindTexture none,
        GLEvent.deleteTexture tex.glTex]
      if f.glReturnTex = tex.glTex then
        ({ f with glReturnTex := none },
          evs ++ [GLEvent.activeTexture f.glReturnUnit])
      else
        (f, evs ++ [GLEvent.bindTexture f.glReturnTex,
          GLEvent.activeTexture f.glReturnUnit])
    else
      (f, [])
  let close : List GLEvent :=
    match tex.canvasImg with
    | some (CImg.bitmap n) => [GLEvent.closeBitmap n]
    | _ => []
  { factory := fe.1
    texture :=
      { tex with
        width := 1
        height := 1
        glTex := none
        glBound := false
        glUnit := 0
        canvasImg := none
        canvasCropScaleX := 1
        canvasCropScaleY := 1 }
    events := fe.2 ++ close }

/-- The decimal digit character for `n < 10`. -/
def digitCh (n : Nat) : Char := Char.ofNat (48 + n)

/-- The decimal digits of a natural number, as produced by JavaScript
template interpolation `` `${n}` `` of a non-negative integer. -/
def natDigits (n : Nat) : List Char :=
  if _h : n < 10 then [digitCh n]
  else natDigits (n / 10) ++ [digitCh (n % 10)]
decreasing_by exact Nat.div_lt_self (Nat.lt_of_lt_of_le (by decide) (Nat.le_of_not_lt _h)) (by decide)

/-- JavaScript `String.prototype.replace` with a (non-empty) string pattern:
replace the first occurrence of `pat` by `rep`, or return the string
unchanged when `pat` does not occur. -/
def replaceFirst (s pat rep : List Char) : List Char :=
  match s with
  | [] => []
  | c :: t =>
    if pat.isPrefixOf (c :: t) then rep ++ (c :: t).drop pat.length
    else c :: replaceFirst t pat rep

/-- One iteration of the code-generation loop in
`src/gfx/webgl/util/parseShader.js`: the branch arm emitted for unit `i`
out of `max`. -/
def armCode (max : Nat) (out array id uv : List Char) (i : Nat) : List Char :=
  (if 0 < i then "else ".data else []) ++
  (if i < max - 1 then
    "if(".data ++ id ++ "==".data ++ natDigits i ++ ".0)".data
  else []) ++
  out ++ "=texture2D(".data ++ array ++ "[".data ++ natDigits i ++
    "],".data ++ uv ++ ");".data

/-- The full injected `if/else if` chain built by the loop in `parseShader`:
one arm per `i` in `[0, max)`, concatenated in loop order. -/
def injectCode (max : Nat) (out array id uv : List Char) : List Char :=
  ((List.range max).map (armCode max out array id uv)).flatten

/-- `parseShader(src, max, out, array, id, uv)`: substitute the two markers
of the fragment-shader template. -/
def parseShader (src : List Char) (max : Nat) (out array id uv : List Char) :
    List Char :=
  replaceFirst (replaceFirst src "%MAX_TEXTURES%".data (natDigits max))
    "%GET_TEXEL%".data (injectCode max out array id uv)

/-- The runtime fragment-shader template `shaderSrc.mainFrag`: the bundled
(comment-stripped, whitespace-minified) form of
`src/gfx/webgl/shaderSrc/mainFrag.fs.glsl`, exactly as it appears in the
built library. -/
def mainFrag : List Char :=
  ("precision mediump float;uniform sampler2D uTex[%MAX_TEXTURES%];" ++
   "varying float vTexID;varying vec2 vUV;varying vec4 vTint;" ++
   "void main()\x7bvec4 texel;%GET_TEXEL%gl_FragColor=vTint*texel;\x7d").data

/-- The fragment shader source built by the `WebGLRenderer`'s program: the
`Program` constructor calls
`parseShader(shaderSrc.mainFrag, max, "texel", "uTex", "vTexID", "vUV")`. -/
def mainFragSrc (max : Nat) : List Char :=
  parseShader mainFrag max "texel".data "uTex".data "vTexID".data "vUV".data

/-- The part of `mainFrag` before the `%MAX_TEXTURES%` marker. -/
def fragPre : List Char :=
  "precision mediump float;uniform sampler2D uTex[".data

/-- The part of `mainFrag` between the two substitution markers. -/
def fragMid : List Char :=
  ("];varying float vTexID;varying vec2 vUV;varying vec4 vTint;" ++
   "void main()\x7bvec4 texel;").data

/-- The part of `mainFrag` after the `%GET_TEXEL%` marker. -/
def fragPost : List Char :=
  "gl_FragColor=vTint*texel;\x7d".data

/-- The number of (possibly overlapping) occurrences of the non-empty
pattern `pat` in `s`. -/
def countOcc (pat : List Char) : List Char → Nat
  | [] => 0
  | c :: t => (if pat.isPrefixOf (c :: t) then 1 else 0) + countOcc pat t

/-- One scene draw call of a frame, as issued by the scene/game loop
(§6 of the renderer contract): `renderer.applyTexture(texture)` immediately
followed by `renderer.drawTexture(x, y, w, h, cx, cy, cw, ch)` (this is
exactly what `TextureManager.draw` does). -/
structure DrawCmd where
  tex : Nat
  x : ℚ
  y : ℚ
  w : ℚ
  h : ℚ
  cx : ℚ
  cy : ℚ
  cw : ℚ
  ch : ℚ
  deriving Repr, DecidableEq

/-- Execute one scene draw call. -/
def drawCmd (s : RState) (c : DrawCmd) : RState :=
  (s.applyTexture c.tex).drawTexture c.x c.y c.w c.h c.cx c.cy c.cw c.ch

/-- Execute the scene drawing of one frame: the draw calls in order. -/
def runFrame (s : RState) (cs : List DrawCmd) : RState :=
  cs.foldl drawCmd s

/-! ### Helper lemmas about the renderer-state operations -/

namespace RState

variable (s : RState)

@[simp] lemma vbFlush_offset : s.vbFlush.offset = 0 := rfl

@[simp] lemma vbFlush_verts : s.vbFlush.verts = [] := rfl

@[simp] lemma vbFlush_store : s.vbFlush.store = s.store := rfl

@[simp] lemma vbFlush_pointer : s.vbFlush.pointer = s.pointer := rfl

@[simp] lemma vbFlush_maxVerts : s.vbFlush.maxVerts = s.maxVerts := rfl

@[simp] lemma vbFlush_maxTextures : s.vbFlush.maxTextures = s.maxTextures := rfl

@[simp] lemma vbFlush_boundTextures :
    s.vbFlush.boundTextures = s.boundTextures := rfl

@[simp] lemma vbFlush_id : s.vbFlush.id = s.id := rfl

@[simp] lemma vbFlush_width : s.vbFlush.width = s.width := rfl

@[simp] lemma vbFlush_height : s.vbFlush.height = s.height := rfl

@[simp] lemma vbFlush_events :
    s.vbFlush.events = s.events ++
      [GLEvent.bufferSubData (s.offset * 24), GLEvent.drawArrays s.offset] := rfl

@[simp] lemma drawCalls_vbFlush : s.vbFlush.drawCalls = s.drawCalls + 1 := by
  simp [drawCalls, vbFlush, List.filter_append, GLEvent.isDraw]

@[simp] lemma getTex_vbFlush (t : Nat) : s.vbFlush.getTex t = s.getTex t := rfl

@[simp] lemma pushVert_offset (x y id u v : ℚ) (tint : Nat) :
    (s.pushVert x y id u v tint).offset = s.offset + 1 := rfl

@[simp] lemma pushVert_events (x y id u v : ℚ) (tint : Nat) :
    (s.pushVert x y id u v tint).events = s.events := rfl

@[simp] lemma pushVert_store (x y id u v : ℚ) (tint : Nat) :
    (s.pushVert x y id u v tint).store = s.store := rfl

@[simp] lemma pushVert_pointer (x y id u v : ℚ) (tint : Nat) :
    (s.pushVert x y id u v tint).pointer = s.pointer := rfl

@[simp] lemma pushVert_maxVerts (x y id u v : ℚ) (tint : Nat) :
    (s.pushVert x y id u v tint).maxVerts = s.maxVerts := rfl

@[simp] lemma pushVert_maxTextures (x y id u v : ℚ) (tint : Nat) :
    (s.pushVert x y id u v tint).maxTextures = s.maxTextures := rfl

@[simp] lemma pushVert_boundTextures (x y id u v : ℚ) (tint : Nat) :
    (s.pushVert x y id u v tint).boundTextures = s.boundTextures := rfl

@[simp] lemma drawCalls_pushVert (x y id u v : ℚ) (tint : Nat) :
    (s.pushVert x y id u v tint).drawCalls = s.drawCalls := rfl

lemma pushVert_verts_of_lt (x y id u v : ℚ) (tint : Nat)
    (h : s.offset < s.maxVerts) :
    (s.pushVert x y id u v tint).verts =
      s.verts ++ [⟨x, y, id, u, v, tint % 2 ^ 32⟩] := by
  simp [pushVert, h]

/-- `pushQuad` when the six new vertices fit: no flush, the offset advances
by six, the quad's vertices are appended, and nothing else changes. -/
lemma pushQuad_of_fit (l t r b id cl ct cr cb : ℚ) (tint : Nat)
    (h : s.offset + 6 ≤ s.maxVerts) :
    s.pushQuad l t r b id cl ct cr cb tint =
      { s with
        verts := s.verts ++ quadVerts l t r b id cl ct cr cb tint
        offset := s.offset + 6 } := by
  have h0 : s.offset < s.maxVerts := by omega
  have h1 : s.offset + 1 < s.maxVerts := by omega
  have h2 : s.offset + 1 + 1 < s.maxVerts := by omega
  have h3 : s.offset + 1 + 1 + 1 < s.maxVerts := by omega
  have h4 : s.offset + 1 + 1 + 1 + 1 < s.maxVerts := by omega
  have h5 : s.offset + 1 + 1 + 1 + 1 + 1 < s.maxVerts := by omega
  have hno : ¬ (s.offset + 6 > s.maxVerts) := by omega
  simp [pushQuad, pushVert, quadVerts, hno, h0, h1, h2, h3, h4, h5]

/-- `pushQuad` when the six new vertices would overflow: flush first, then
the buffer holds exactly the quad's six vertices. -/
lemma pushQuad_of_overflow (l t r b id cl ct cr cb : ℚ) (tint : Nat)
    (h : s.offset + 6 > s.maxVerts) (h6 : 6 ≤ s.maxVerts) :
    s.pushQuad l t r b id cl ct cr cb tint =
      { s with
        events := s.events ++
          [GLEvent.bufferSubData (s.offset * 24), GLEvent.drawArrays s.offset]
        verts := quadVerts l t r b id cl ct cr cb tint
        offset := 6 } := by
  have h0 : 0 < s.maxVerts := by omega
  have h1 : 1 < s.maxVerts := by omega
  have h2 : 2 < s.maxVerts := by omega
  have h3 : 3 < s.maxVerts := by omega
  have h4 : 4 < s.maxVerts := by omega
  have h5 : 5 < s.maxVerts := by omega
  simp [pushQuad, pushVert, vbFlush, quadVerts, h, h0, h1, h2, h3, h4, h5]

end RState

/-! ### Helper lemmas about list stores -/

lemma getD_set_eq {α : Type} (l : List α) (i : Nat) (a d : α)
    (h : i < l.length) : (l.set i a).getD i d = a := by
  rw [List.getD_eq_getElem?_getD, List.getElem?_set_self h]
  rfl

lemma getD_set_ne {α : Type} (l : List α) {i j : Nat} (a d : α)
    (h : i ≠ j) : (l.set i a).getD j d = l.getD j d := by
  rw [List.getD_eq_getElem?_getD, List.getElem?_set_ne h,
    ← List.getD_eq_getElem?_getD]

namespace RState

@[simp] lemma unbindAll_nil (store : List Texture) :
    unbindAll store [] = store := rfl

lemma unbindAll_cons (store : List Texture) (i : Nat) (ids : List Nat) :
    unbindAll store (i :: ids) =
      unbindAll
        (store.set i { store.getD i Texture.init with glBound := false })
        ids := rfl

/-- `unbindAll` preserves the length of the store. -/
lemma unbindAll_length (ids : List Nat) (store : List Texture) :
    (unbindAll store ids).length = store.length := by
  induction ids generalizing store with
  | nil => rfl
  | cons i ids ih => rw [unbindAll_cons, ih, List.length_set]

/-- `unbindAll` never sets `glBound`. -/
lemma unbindAll_glBound_imp (ids : List Nat) (store : List Texture) (u : Nat)
    (h : ((unbindAll store ids).getD u Texture.init).glBound = true) :
    (store.getD u Texture.init).glBound = true := by
  induction ids generalizing store with
  | nil => exact h
  | cons i ids ih =>
    rw [unbindAll, List.foldl_cons, ← unbindAll] at h
    have h' := ih _ h
    by_cases hlen : i < store.length
    · by_cases hij : i = u
      · subst hij
        rw [getD_set_eq _ _ _ _ hlen] at h'
        exact absurd h' (by simp)
      · rwa [getD_set_ne _ _ _ hij] at h'
    · rwa [List.set_eq_of_length_le (by omega)] at h'

/-- `unbindAll` leaves textures outside `ids` untouched. -/
lemma unbindAll_getD_of_not_mem (ids : List Nat) (store : List Texture)
    (u : Nat) (hu : u ∉ ids) :
    (unbindAll store ids).getD u Texture.init = store.getD u Texture.init := by
  induction ids generalizing store with
  | nil => rfl
  | cons i ids ih =>
    rw [unbindAll, List.foldl_cons, ← unbindAll]
    rw [ih _ (by simp at hu; exact hu.2)]
    exact getD_set_ne _ _ _ (by simp at hu; exact fun h => hu.1 h.symm)

/-- After `unbindAll`, every texture in `ids` reports `glBound = false`. -/
lemma unbindAll_glBound_mem (ids : List Nat) (store : List Texture) (u : Nat)
    (hu : u ∈ ids) :
    ((unbindAll store ids).getD u Texture.init).glBound = false := by
  induction ids generalizing store with
  | nil => cases hu
  | cons i ids ih =>
    rw [unbindAll, List.foldl_cons, ← unbindAll]
    by_cases hmem : u ∈ ids
    · exact ih _ hmem
    · have hui : u = i := by
        rcases List.mem_cons.mp hu with h | h
        · exact h
        · exact absurd h hmem
      subst hui
      cases hb : ((unbindAll (store.set u
          { store.getD u Texture.init with glBound := false }) ids).getD u
          Texture.init).glBound
      · rfl
      · exfalso
        have h' := unbindAll_glBound_imp ids _ u hb
        by_cases hlen : u < store.length
        · rw [getD_set_eq _ _ _ _ hlen] at h'
          simp at h'
        · rw [List.set_eq_of_length_le (by omega),
            List.getD_eq_default _ _ (by omega)] at h'
          simp [Texture.init] at h'

variable (s : RState)

@[simp] lemma cacheFlush_pointer : s.cacheFlush.pointer = 0 := rfl

@[simp] lemma cacheFlush_offset : s.cacheFlush.offset = 0 := rfl

@[simp] lemma cacheFlush_verts : s.cacheFlush.verts = [] := rfl

@[simp] lemma cacheFlush_maxVerts : s.cacheFlush.maxVerts = s.maxVerts := rfl

@[simp] lemma cacheFlush_maxTextures :
    s.cacheFlush.maxTextures = s.maxTextures := rfl

@[simp] lemma cacheFlush_boundTextures :
    s.cacheFlush.boundTextures = s.boundTextures := rfl

@[simp] lemma cacheFlush_store :
    s.cacheFlush.store =
      unbindAll s.store (s.boundTextures.take s.maxTextures) := rfl

@[simp] lemma cacheFlush_events :
    s.cacheFlush.events = s.events ++
      [GLEvent.bufferSubData (s.offset * 24), GLEvent.drawArrays s.offset] := rfl

@[simp] lemma drawCalls_cacheFlush : s.cacheFlush.drawCalls = s.drawCalls + 1 := by
  simp [drawCalls, List.filter_append, GLEvent.isDraw]

/-- `applyTexture` on an already-bound texture: only the applied-texture
snapshot changes. -/
lemma applyTexture_of_bound (t : Nat) (h : (s.getTex t).glBound = true) :
    s.applyTexture t =
      { s with id := (s.getTex t).glUnit, width := (s.getTex t).width,
               height := (s.getTex t).height } := by
  simp [applyTexture, h]

/-- `applyTexture` on an unbound texture with a free unit: bind to the unit
at the pointer and advance it; no flush. -/
lemma applyTexture_of_unbound_lt (t : Nat) (h : (s.getTex t).glBound = false)
    (hlt : s.pointer < s.maxTextures) :
    s.applyTexture t =
      { s with
        events := s.events ++ [GLEvent.activeTexture s.pointer,
          GLEvent.bindTexture (s.getTex t).glTex]
        glReturnUnit := s.pointer
        glReturnTex := (s.getTex t).glTex
        store := s.store.set t
          { s.getTex t with glUnit := s.pointer, glBound := true }
        boundTextures := s.boundTextures.set s.pointer t
        pointer := s.pointer + 1 } := by
  have hge : ¬ (s.pointer ≥ s.maxTextures) := by omega
  simp [applyTexture, h, hge, setTex]

/-- `applyTexture` on an unbound texture with the pointer at the limit:
flush first, then bind to unit `0`. -/
lemma applyTexture_of_unbound_ge (t : Nat) (h : (s.getTex t).glBound = false)
    (hge : s.maxTextures ≤ s.pointer) :
    s.applyTexture t =
      { s.cacheFlush with
        events := s.cacheFlush.events ++ [GLEvent.activeTexture 0,
          GLEvent.bindTexture (s.cacheFlush.getTex t).glTex]
        glReturnUnit := 0
        glReturnTex := (s.cacheFlush.getTex t).glTex
        store := s.cacheFlush.store.set t
          { s.cacheFlush.getTex t with glUnit := 0, glBound := true }
        boundTextures := s.boundTextures.set 0 t
        pointer := 1 } := by
  have hb : (s.cacheFlush.getTex t).glBound = false := by
    cases hbb : (s.cacheFlush.getTex t).glBound
    · rfl
    · have himp := unbindAll_glBound_imp (s.boundTextures.take s.maxTextures)
        s.store t hbb
      have hf : (s.store.getD t Texture.init).glBound = false := h
      rw [himp] at hf
      exact absurd hf (by simp)
  have hge' : s.pointer ≥ s.maxTextures := hge
  simp [applyTexture, h, hge', setTex, hb]

/-- An unbound texture stays unbound across a cache flush. -/
lemma cacheFlush_glBound_of_unbound (t : Nat)
    (h : (s.getTex t).glBound = false) :
    (s.cacheFlush.getTex t).glBound = false := by
  cases hb : (s.cacheFlush.getTex t).glBound
  · rfl
  · have himp := unbindAll_glBound_imp (s.boundTextures.take s.maxTextures)
      s.store t hb
    have hf : (s.store.getD t Texture.init).glBound = false := h
    rw [himp] at hf
    exact absurd hf (by simp)

end RState

/-! ### C3: overflow triggers flush -/

/-- C3.  For every vertex-buffer state with offset `o` and capacity
`maxVerts ≥ 6`, `pushQuad` flushes (issues a draw call) if and only if
`o + 6 > maxVerts`; after such a flushing push the buffer contains exactly
the new quad's six vertices and the offset is `6`; otherwise the six
vertices are appended and the offset advances by six; hence the offset never
exceeds `maxVerts` when all pushes go through `pushQuad`. -/
theorem pushQuad_overflow_flush (s : Sol.RState) (l t r b id cl ct cr cb : ℚ)
    (tint : Nat) (h6 : 6 ≤ s.maxVerts) :
    (s.offset + 6 > s.maxVerts →
      (s.pushQuad l t r b id cl ct cr cb tint).drawCalls = s.drawCalls + 1 ∧
      (s.pushQuad l t r b id cl ct cr cb tint).offset = 6 ∧
      (s.pushQuad l t r b id cl ct cr cb tint).verts =
        Sol.RState.quadVerts l t r b id cl ct cr cb tint) ∧
    (s.offset + 6 ≤ s.maxVerts →
      (s.pushQuad l t r b id cl ct cr cb tint).drawCalls = s.drawCalls ∧
      (s.pushQuad l t r b id cl ct cr cb tint).offset = s.offset + 6 ∧
      (s.pushQuad l t r b id cl ct cr cb tint).verts =
        s.verts ++ Sol.RState.quadVerts l t r b id cl ct cr cb tint) ∧
    (s.offset ≤ s.maxVerts →
      (s.pushQuad l t r b id cl ct cr cb tint).offset ≤ s.maxVerts) := by
  refine ⟨fun h => ?_, fun h => ?_, fun h => ?_⟩
  · rw [s.pushQuad_of_overflow l t r b id cl ct cr cb tint h h6]
    refine ⟨?_, rfl, rfl⟩
    simp [Sol.RState.drawCalls, List.filter_append, Sol.RState.GLEvent.isDraw]
  · rw [s.pushQuad_of_fit l t r b id cl ct cr cb tint h]
    exact ⟨rfl, rfl, rfl⟩
  · by_cases hc : s.offset + 6 > s.maxVerts
    · rw [s.pushQuad_of_overflow l t r b id cl ct cr cb tint hc h6]; exact h6
    · rw [s.pushQuad_of_fit l t r b id cl ct cr cb tint (by omega)]
      show s.offset + 6 ≤ s.maxVerts
      omega

/-- Witness for C3 at a concrete state: capacity 6, offset 4 overflows. -/
theorem pushQuad_overflow_flush_witness :
    (6 ≤ (6 : Nat)) ∧
    ((4 : Nat) + 6 > 6 →
      (Sol.RState.pushQuad
        { store := [], glReturnTex := none, glReturnUnit := 0,
          maxVerts := 6, offset := 4, verts := [], maxTextures := 1,
          pointer := 0, boundTextures := [0], id := 0, width := 1,
          height := 1, events := [] }
        0 0 1 1 0 0 0 1 1 255).drawCalls = 0 + 1) := by
  refine ⟨by decide, fun h => ?_⟩
  have := pushQuad_overflow_flush
    { store := [], glReturnTex := none, glReturnUnit := 0,
      maxVerts := 6, offset := 4, verts := [], maxTextures := 1,
      pointer := 0, boundTextures := [0], id := 0, width := 1,
      height := 1, events := [] }
    0 0 1 1 0 0 0 1 1 255 (by decide)
  have h2 := (this.1 (by decide)).1
  simpa [Sol.RState.drawCalls] using h2

/-! ### C4: UV mapping (corrected) -/

/-- C4 counterexample.  The claim asserts bottom-right UV corner
`(0.3, 0.4)` for `drawTexture(0, 0, 100, 50, 10, 10, 20, 20)` on an applied
texture of width 100 and height 50; the code computes the bottom-right `v`
as `(cropH + cropY) / height = 30 / 50 = 0.6`, not `0.4`. -/
theorem uv_mapping_counterexample :
    ((Sol.RState.drawTexture
        { store := [], glReturnTex := none, glReturnUnit := 0,
          maxVerts := 16384, offset := 0, verts := [], maxTextures := 32,
          pointer := 0, boundTextures := [], id := 0, width := 100,
          height := 50, events := [] }
        0 0 100 50 10 10 20 20).verts.getD 5
          ⟨0, 0, 0, 0, 0, 0⟩).u = 3/10 ∧
    ((Sol.RState.drawTexture
        { store := [], glReturnTex := none, glReturnUnit := 0,
          maxVerts := 16384, offset := 0, verts := [], maxTextures := 32,
          pointer := 0, boundTextures := [], id := 0, width := 100,
          height := 50, events := [] }
        0 0 100 50 10 10 20 20).verts.getD 5
          ⟨0, 0, 0, 0, 0, 0⟩).v = 3/5 ∧
    ¬ ((3 : ℚ)/5 = 2/5) := by
  refine ⟨?_, ?_, by norm_num⟩ <;>
  · simp only [Sol.RState.drawTexture]
    rw [Sol.RState.pushQuad_of_fit _ _ _ _ _ _ _ _ _ _ _ (by norm_num)]
    norm_num [Sol.RState.quadVerts]

/-- C4 (amended).  With an applied texture of width 100 and height 50 and a
fresh buffer, `drawTexture(x=0, y=0, w=100, h=50, cropX=10, cropY=10,
cropW=20, cropH=20)` pushes a quad whose UV corners are `(0.1, 0.2)` at the
top-left and `(0.3, 0.6)` at the bottom-right. -/
theorem uv_mapping_amended (s : Sol.RState) (h6 : 6 ≤ s.maxVerts)
    (ho : s.offset = 0) (hv : s.verts = []) (hw : s.width = 100)
    (hh : s.height = 50) :
    (s.drawTexture 0 0 100 50 10 10 20 20).verts =
      [⟨0, 0, (s.id : ℚ), 1/10, 1/5, 0xFFFFFFFF⟩,
       ⟨0, 50, (s.id : ℚ), 1/10, 3/5, 0xFFFFFFFF⟩,
       ⟨100, 0, (s.id : ℚ), 3/10, 1/5, 0xFFFFFFFF⟩,
       ⟨100, 0, (s.id : ℚ), 3/10, 1/5, 0xFFFFFFFF⟩,
       ⟨0, 50, (s.id : ℚ), 1/10, 3/5, 0xFFFFFFFF⟩,
       ⟨100, 50, (s.id : ℚ), 3/10, 3/5, 0xFFFFFFFF⟩] := by
  have hfit : s.offset + 6 ≤ s.maxVerts := by omega
  simp only [Sol.RState.drawTexture]
  rw [s.pushQuad_of_fit _ _ _ _ _ _ _ _ _ _ hfit]
  simp [hv, hw, hh, Sol.RState.quadVerts]
  norm_num

/-- Witness for C4 (amended) at a concrete renderer state. -/
theorem uv_mapping_amended_witness :
    (Sol.RState.drawTexture
        { store := [], glReturnTex := none, glReturnUnit := 0,
          maxVerts := 16384, offset := 0, verts := [], maxTextures := 32,
          pointer := 0, boundTextures := [], id := 0, width := 100,
          height := 50, events := [] }
        0 0 100 50 10 10 20 20).verts =
      [⟨0, 0, 0, 1/10, 1/5, 0xFFFFFFFF⟩,
       ⟨0, 50, 0, 1/10, 3/5, 0xFFFFFFFF⟩,
       ⟨100, 0, 0, 3/10, 1/5, 0xFFFFFFFF⟩,
       ⟨100, 0, 0, 3/10, 1/5, 0xFFFFFFFF⟩,
       ⟨0, 50, 0, 1/10, 3/5, 0xFFFFFFFF⟩,
       ⟨100, 50, 0, 3/10, 3/5, 0xFFFFFFFF⟩] := by
  have h := uv_mapping_amended
    { store := [], glReturnTex := none, glReturnUnit := 0,
      maxVerts := 16384, offset := 0, verts := [], maxTextures := 32,
      pointer := 0, boundTextures := [], id := 0, width := 100,
      height := 50, events := [] }
    (by decide) rfl rfl rfl rfl
  simpa using h

/-! ### C8: idempotent re-apply (cache-hit path) -/

/-- C8.  Applying an already-bound texture takes the cheap path: the entire
state is unchanged except that the texture's unit, width and height are
copied into the applied-texture snapshot; in particular no WebGL call is
made, the pointer, the store and the factory's restore register are
untouched, and a second consecutive apply of the same texture leaves the
state identical. -/
theorem applyTexture_cheap_path (s : Sol.RState) (t : Nat)
    (h : (s.getTex t).glBound = true) :
    s.applyTexture t =
      { s with id := (s.getTex t).glUnit, width := (s.getTex t).width,
               height := (s.getTex t).height } ∧
    (s.applyTexture t).events = s.events ∧
    (s.applyTexture t).pointer = s.pointer ∧
    (s.applyTexture t).store = s.store ∧
    (s.applyTexture t).glReturnTex = s.glReturnTex ∧
    (s.applyTexture t).glReturnUnit = s.glReturnUnit ∧
    (s.applyTexture t).applyTexture t = s.applyTexture t := by
  have he := s.applyTexture_of_bound t h
  refine ⟨he, by rw [he], by rw [he], by rw [he], by rw [he], by rw [he], ?_⟩
  have h2 : ((s.applyTexture t).getTex t).glBound = true := by
    rw [he]; exact h
  have h3 : (s.applyTexture t).getTex t = s.getTex t := by
    rw [he]; rfl
  rw [(s.applyTexture t).applyTexture_of_bound t h2, h3, he]

/-- Witness for C8: a second apply of a bound texture changes nothing. -/
theorem applyTexture_cheap_path_witness :
    (Sol.RState.applyTexture
      { store := [{ Sol.Texture.init with
            glBound := true, glUnit := 0, glTex := some 7,
            width := 8, height := 8 }],
        glReturnTex := some 7, glReturnUnit := 0, maxVerts := 16384,
        offset := 0, verts := [], maxTextures := 32, pointer := 1,
        boundTextures := [0], id := 0, width := 1, height := 1,
        events := [] } 0).events = [] := by
  have h := applyTexture_cheap_path
    { store := [{ Sol.Texture.init with
          glBound := true, glUnit := 0, glTex := some 7,
          width := 8, height := 8 }],
      glReturnTex := some 7, glReturnUnit := 0, maxVerts := 16384,
      offset := 0, verts := [], maxTextures := 32, pointer := 1,
      boundTextures := [0], id := 0, width := 1, height := 1,
      events := [] } 0 rfl
  exact h.2.1

/-! ### C9: pointer invariant -/

/-- C9.  The next-free-unit pointer stays in `[0, maxUnits]`: `flush` resets
it to `0` and `applyTexture` preserves the bound; moreover a bind attempt
finding the pointer at `maxUnits` behaves exactly as a flush (which unbinds
every cached texture and resets the pointer to `0`) followed by the bind,
leaving the pointer at `1`. -/
theorem pointer_invariant (s : Sol.RState) (t : Nat)
    (hmax : 1 ≤ s.maxTextures) (hp : s.pointer ≤ s.maxTextures) :
    (s.applyTexture t).pointer ≤ s.maxTextures ∧
    s.cacheFlush.pointer = 0 ∧
    ((s.getTex t).glBound = false → s.maxTextures ≤ s.pointer →
      s.applyTexture t = s.cacheFlush.applyTexture t ∧
      (∀ u ∈ s.boundTextures.take s.maxTextures,
        (s.cacheFlush.getTex u).glBound = false) ∧
      (s.applyTexture t).pointer = 1) := by
  refine ⟨?_, rfl, fun hub hge => ⟨?_, ?_, ?_⟩⟩
  · cases hb : (s.getTex t).glBound
    · by_cases hlt : s.pointer < s.maxTextures
      · rw [s.applyTexture_of_unbound_lt t hb hlt]
        show s.pointer + 1 ≤ s.maxTextures
        omega
      · rw [s.applyTexture_of_unbound_ge t hb (by omega)]
        exact hmax
    · rw [s.applyTexture_of_bound t hb]
      exact hp
  · have hb := s.cacheFlush_glBound_of_unbound t hub
    have hlt : s.cacheFlush.pointer < s.cacheFlush.maxTextures := by
      simpa using hmax
    rw [s.applyTexture_of_unbound_ge t hub hge,
      s.cacheFlush.applyTexture_of_unbound_lt t hb hlt]
    simp
  · intro u hu
    exact Sol.RState.unbindAll_glBound_mem _ _ _ hu
  · rw [s.applyTexture_of_unbound_ge t hub hge]

/-- Witness for C9 at a concrete state with the pointer at the limit. -/
theorem pointer_invariant_witness :
    (Sol.RState.applyTexture
      { store := [{ Sol.Texture.init with glBound := true, glTex := some 3 },
          Sol.Texture.init],
        glReturnTex := some 3, glReturnUnit := 0, maxVerts := 16384,
        offset := 0, verts := [], maxTextures := 1, pointer := 1,
        boundTextures := [0], id := 0, width := 1, height := 1,
        events := [] } 1).pointer = 1 := by
  have h := pointer_invariant
    { store := [{ Sol.Texture.init with glBound := true, glTex := some 3 },
        Sol.Texture.init],
      glReturnTex := some 3, glReturnUnit := 0, maxVerts := 16384,
      offset := 0, verts := [], maxTextures := 1, pointer := 1,
      boundTextures := [0], id := 0, width := 1, height := 1,
      events := [] } 1 (by decide) (by decide)
  exact (h.2.2 (by decide) (by decide)).2.2

/-! ### C2: unit exhaustion triggers flush-and-reset -/

/-- C2.  When `applyTexture` is called with an unbound texture and the
pointer already equals `maxUnits`, a flush (one draw call) occurs first;
afterwards the new texture is bound to unit `0`, the pointer equals `1`,
the new texture occupies slot `0` of the bound array, and every texture
that was bound before the flush reports `glBound = false`. -/
theorem unit_exhaustion_flush_reset (s : Sol.RState) (t : Nat)
    (hmax : 1 ≤ s.maxTextures)
    (hp : s.pointer = s.maxTextures)
    (hub : (s.getTex t).glBound = false)
    (ht : t < s.store.length)
    (hlen : s.boundTextures.length = s.maxTextures)
    (hwf : ∀ u < s.store.length,
      (s.getTex u).glBound = true → u ∈ s.boundTextures) :
    (s.applyTexture t).drawCalls = s.drawCalls + 1 ∧
    ((s.applyTexture t).getTex t).glBound = true ∧
    ((s.applyTexture t).getTex t).glUnit = 0 ∧
    (s.applyTexture t).pointer = 1 ∧
    (s.applyTexture t).boundTextures.getD 0 0 = t ∧
    (∀ u, (s.getTex u).glBound = true →
      ((s.applyTexture t).getTex u).glBound = false) := by
  have hge : s.maxTextures ≤ s.pointer := by omega
  have he := s.applyTexture_of_unbound_ge t hub hge
  have htake : s.boundTextures.take s.maxTextures = s.boundTextures := by
    rw [← hlen]; simp
  have hlen2 : t < s.cacheFlush.store.length := by
    simpa [Sol.RState.unbindAll_length] using ht
  refine ⟨?_, ?_, ?_, ?_, ?_, ?_⟩
  · rw [he]
    simp [Sol.RState.drawCalls, List.filter_append, Sol.RState.GLEvent.isDraw]
  · rw [he]
    show ((s.cacheFlush.store.set t _).getD t Sol.Texture.init).glBound = true
    rw [Sol.getD_set_eq _ _ _ _ hlen2]
  · rw [he]
    show ((s.cacheFlush.store.set t _).getD t Sol.Texture.init).glUnit = 0
    rw [Sol.getD_set_eq _ _ _ _ hlen2]
  · rw [he]
  · rw [he]
    show (s.boundTextures.set 0 t).getD 0 0 = t
    have : 0 < s.boundTextures.length := by omega
    rw [Sol.getD_set_eq _ _ _ _ this]
  · intro u hu
    have hul : u < s.store.length := by
      by_contra hge'
      rw [Sol.RState.getTex, List.getD_eq_default _ _ (by omega)] at hu
      simp [Sol.Texture.init] at hu
    have hmem : u ∈ s.boundTextures := hwf u hul hu
    have hne : u ≠ t := by
      intro hut
      rw [hut, hub] at hu
      exact Bool.noConfusion hu
    rw [he]
    show ((s.cacheFlush.store.set t _).getD u Sol.Texture.init).glBound = false
    rw [Sol.getD_set_ne _ _ _ (fun hh => hne hh.symm)]
    have := Sol.RState.unbindAll_glBound_mem
      (s.boundTextures.take s.maxTextures) s.store u (by rw [htake]; exact hmem)
    exact this

/-- Witness for C2: a second distinct texture with `maxUnits = 1`. -/
theorem unit_exhaustion_flush_reset_witness :
    (Sol.RState.applyTexture
      { store := [{ Sol.Texture.init with glBound := true, glTex := some 3 },
          { Sol.Texture.init with glTex := some 4 }],
        glReturnTex := some 3, glReturnUnit := 0, maxVerts := 16384,
        offset := 0, verts := [], maxTextures := 1, pointer := 1,
        boundTextures := [0], id := 0, width := 1, height := 1,
        events := [] } 1).drawCalls = 0 + 1 := by
  have h := unit_exhaustion_flush_reset
    { store := [{ Sol.Texture.init with glBound := true, glTex := some 3 },
        { Sol.Texture.init with glTex := some 4 }],
      glReturnTex := some 3, glReturnUnit := 0, maxVerts := 16384,
      offset := 0, verts := [], maxTextures := 1, pointer := 1,
      boundTextures := [0], id := 0, width := 1, height := 1,
      events := [] } 1 (by decide) rfl (by decide) (by decide) (by decide)
      (by decide)
  simpa [Sol.RState.drawCalls] using h.1

/-! ### C5: destroy resets to defaults and is idempotent -/

/-- C5.  For every texture and every (possibly absent) GPU context,
`destroyTexture` leaves the texture record at its constructor defaults
(width 1, height 1, flags cleared, no handles, unit 0, crop scales 1), and
destroying the already-reset texture again, in any context, leaves it in
exactly the same state. -/
theorem destroyTexture_resets (gl : Bool) (f : Sol.FactoryState)
    (tex : Sol.Texture) :
    (Sol.destroyTexture gl f tex).texture = Sol.Texture.init ∧
    (Sol.destroyTexture gl f tex).texture.width = 1 ∧
    (Sol.destroyTexture gl f tex).texture.height = 1 ∧
    (Sol.destroyTexture gl f tex).texture.loaded = false ∧
    (Sol.destroyTexture gl f tex).texture.missing = false ∧
    (Sol.destroyTexture gl f tex).texture.glTex = none ∧
    (Sol.destroyTexture gl f tex).texture.glBound = false ∧
    (Sol.destroyTexture gl f tex).texture.glUnit = 0 ∧
    (Sol.destroyTexture gl f tex).texture.canvasImg = none ∧
    (Sol.destroyTexture gl f tex).texture.canvasCropScaleX = 1 ∧
    (Sol.destroyTexture gl f tex).texture.canvasCropScaleY = 1 ∧
    (∀ (gl2 : Bool) (f2 : Sol.FactoryState),
      (Sol.destroyTexture gl2 f2
          (Sol.destroyTexture gl f tex).texture).texture =
        (Sol.destroyTexture gl f tex).texture) :=
  ⟨rfl, rfl, rfl, rfl, rfl, rfl, rfl, rfl, rfl, rfl, rfl,
    fun _ _ => rfl⟩

/-! ### C10: the restore register never refers to a deleted handle -/

/-- C10.  Destroying a texture with a GPU context: when the destroyed
texture's handle equals the factory's `glReturnTex`, the register is set to
`null` and no rebind of that handle is issued; otherwise the registered
handle is rebound and the registered unit re-activated, the register being
unchanged.  In both cases the register afterwards is `null` or differs from
the deleted handle. -/
theorem destroy_restore_register (f : Sol.FactoryState) (tex : Sol.Texture) :
    (f.glReturnTex = tex.glTex →
      (Sol.destroyTexture true f tex).factory.glReturnTex = none ∧
      ∀ h : Nat, tex.glTex = some h →
        Sol.GLEvent.bindTexture (some h) ∉
          (Sol.destroyTexture true f tex).events) ∧
    (f.glReturnTex ≠ tex.glTex →
      (Sol.destroyTexture true f tex).factory.glReturnTex = f.glReturnTex ∧
      Sol.GLEvent.bindTexture f.glReturnTex ∈
        (Sol.destroyTexture true f tex).events ∧
      Sol.GLEvent.activeTexture f.glReturnUnit ∈
        (Sol.destroyTexture true f tex).events) ∧
    ((Sol.destroyTexture true f tex).factory.glReturnTex = none ∨
      (Sol.destroyTexture true f tex).factory.glReturnTex ≠ tex.glTex) := by
  by_cases heq : f.glReturnTex = tex.glTex
  · refine ⟨fun _ => ⟨?_, ?_⟩, fun hne => absurd heq hne, Or.inl ?_⟩
    · simp [Sol.destroyTexture, heq]
    · intro h hh
      rcases hc : tex.canvasImg with _ | img
      · simp [Sol.destroyTexture, heq, hc]
      · cases img <;> simp [Sol.destroyTexture, heq, hc]
    · simp [Sol.destroyTexture, heq]
  · refine ⟨fun he => absurd he heq, fun _ => ⟨?_, ?_, ?_⟩, Or.inr ?_⟩
    · simp [Sol.destroyTexture, heq]
    · rcases hc : tex.canvasImg with _ | img
      · simp [Sol.destroyTexture, heq, hc]
      · cases img <;> simp [Sol.destroyTexture, heq, hc]
    · rcases hc : tex.canvasImg with _ | img
      · simp [Sol.destroyTexture, heq, hc]
      · cases img <;> simp [Sol.destroyTexture, heq, hc]
    · simp [Sol.destroyTexture, heq]

/-- Witness for C10 with handle 5 registered: destroying the texture holding
handle 5 nulls the register; destroying one holding handle 6 keeps it. -/
theorem destroy_restore_register_witness :
    (Sol.destroyTexture true ⟨some 5, 2⟩
      { Sol.Texture.init with glTex := some 5 }).factory.glReturnTex =
        none ∧
    (Sol.destroyTexture true ⟨some 5, 2⟩
      { Sol.Texture.init with glTex := some 6 }).factory.glReturnTex =
        some 5 := by
  constructor
  · exact ((destroy_restore_register ⟨some 5, 2⟩
      { Sol.Texture.init with glTex := some 5 }).1 rfl).1
  · exact ((destroy_restore_register ⟨some 5, 2⟩
      { Sol.Texture.init with glTex := some 6 }).2.1 (by decide)).1

/-! ### C7: configuration limits (corrected) -/

/-- C7 counterexample.  The claim asserts the constructed `glMaxVerts` is a
multiple of 6; with default options it is 16384, which is not a multiple
of 6 (the constructor clamps but never rounds). -/
theorem config_counterexample :
    (Sol.mkGfxManagerConfig {}).glMaxVerts = 16384 ∧
    ¬ ∃ k : ℤ, (Sol.mkGfxManagerConfig {}).glMaxVerts = 6 * k := by
  have hv : (Sol.mkGfxManagerConfig {}).glMaxVerts = 16384 := by
    show Sol.clamp 16384 6 65536 = 16384
    rw [Sol.clamp]
    norm_num
  refine ⟨hv, ?_⟩
  rintro ⟨k, hk⟩
  rw [hv] at hk
  have hk' : (16384 : ℤ) = 6 * k := by exact_mod_cast hk
  omega

/-- C7 (amended).  For every options object the constructed configuration
has `glMaxTextures` clamped into `[1, 32]` and `glMaxVerts` clamped into
`[6, 65536]` (with no rounding to a multiple of 6), and at renderer
construction the texture-unit limit is further clamped between 1 and the
configured value, hence never exceeds the configured value and never
exceeds the host GPU's maximum when that maximum is at least 1. -/
theorem config_limits_amended (options : Sol.GfxOptions) (host : ℚ) :
    1 ≤ (Sol.mkGfxManagerConfig options).glMaxTextures ∧
    (Sol.mkGfxManagerConfig options).glMaxTextures ≤ 32 ∧
    6 ≤ (Sol.mkGfxManagerConfig options).glMaxVerts ∧
    (Sol.mkGfxManagerConfig options).glMaxVerts ≤ 65536 ∧
    Sol.rendererMaxTextures host
        (Sol.mkGfxManagerConfig options).glMaxTextures ≤
      (Sol.mkGfxManagerConfig options).glMaxTextures ∧
    1 ≤ Sol.rendererMaxTextures host
        (Sol.mkGfxManagerConfig options).glMaxTextures ∧
    (1 ≤ host →
      Sol.rendererMaxTextures host
          (Sol.mkGfxManagerConfig options).glMaxTextures ≤ host) := by
  have h1 : 1 ≤ (Sol.mkGfxManagerConfig options).glMaxTextures := by
    show (1 : ℚ) ≤ Sol.clamp _ 1 32
    rw [Sol.clamp]
    exact le_min (by norm_num) (le_max_left _ _)
  refine ⟨h1, min_le_left _ _, ?_, min_le_left _ _, min_le_left _ _, ?_, ?_⟩
  · show (6 : ℚ) ≤ Sol.clamp _ 6 65536
    rw [Sol.clamp]
    exact le_min (by norm_num) (le_max_left _ _)
  · rw [Sol.rendererMaxTextures, Sol.clamp]
    exact le_min h1 (le_max_left _ _)
  · intro hh
    rw [Sol.rendererMaxTextures, Sol.clamp]
    calc min ((Sol.mkGfxManagerConfig options).glMaxTextures) (max 1 host) ≤
        max 1 host := min_le_right _ _
      _ = host := max_eq_right hh

/-- Witness for C7 (amended) at default options and a host limit of 8. -/
theorem config_limits_amended_witness :
    Sol.rendererMaxTextures 8
      (Sol.mkGfxManagerConfig {}).glMaxTextures ≤ 8 :=
  (config_limits_amended {} 8).2.2.2.2.2.2 (by norm_num)

/-! ### C1: batching correctness -/

namespace RState

lemma drawTexture_eq_pushQuad (s : RState) (x y w h cx cy cw ch : ℚ) :
    s.drawTexture x y w h cx cy cw ch =
      s.pushQuad x y (w + x) (h + y) (s.id : ℚ) (cx / s.width) (cy / s.height)
        ((cw + cx) / s.width) ((ch + cy) / s.height) 0xFFFFFFFF := rfl

/-- One scene draw call, starting from a state whose bound textures are
exactly the finite set `B` (all within the store) with the pointer at
`B.card`: if the vertex buffer has room for one quad and either the
command's texture is already bound or a unit is free, then the draw call
issues no draw call, advances the offset by six, and re-establishes the
invariant for `insert c.tex B`. -/
lemma drawCmd_step (s : RState) (c : DrawCmd) (B : Finset Nat)
    (hB : ∀ u, u < s.store.length →
      (((s.getTex u).glBound = true) ↔ u ∈ B))
    (hp : s.pointer = B.card)
    (htex : c.tex < s.store.length)
    (hcard : c.tex ∉ B → B.card < s.maxTextures)
    (hoff : s.offset + 6 ≤ s.maxVerts) :
    (drawCmd s c).drawCalls = s.drawCalls ∧
    (drawCmd s c).offset = s.offset + 6 ∧
    (drawCmd s c).maxVerts = s.maxVerts ∧
    (drawCmd s c).maxTextures = s.maxTextures ∧
    (drawCmd s c).store.length = s.store.length ∧
    (drawCmd s c).pointer = (insert c.tex B).card ∧
    (∀ u, u < s.store.length →
      ((((drawCmd s c).getTex u).glBound = true) ↔ u ∈ insert c.tex B)) := by
  cases hb : (s.getTex c.tex).glBound with
  | true =>
    have hmem : c.tex ∈ B := (hB c.tex htex).mp hb
    have hins : insert c.tex B = B := Finset.insert_eq_self.mpr hmem
    have happ := s.applyTexture_of_bound c.tex hb
    rw [drawCmd, happ, drawTexture_eq_pushQuad,
      pushQuad_of_fit _ _ _ _ _ _ _ _ _ _ _ (by simpa using hoff)]
    refine ⟨?_, rfl, rfl, rfl, rfl, by simpa [hins] using hp, ?_⟩
    · rfl
    · intro u hu
      rw [hins]
      exact hB u hu
  | false =>
    have hmem : c.tex ∉ B := fun hm => by
      rw [(hB c.tex htex).mpr hm] at hb
      exact Bool.noConfusion hb
    have hins : (insert c.tex B).card = B.card + 1 :=
      Finset.card_insert_of_not_mem hmem
    have hlt : s.pointer < s.maxTextures := by
      rw [hp]; exact hcard hmem
    have happ := s.applyTexture_of_unbound_lt c.tex hb hlt
    rw [drawCmd, happ, drawTexture_eq_pushQuad,
      pushQuad_of_fit _ _ _ _ _ _ _ _ _ _ _ (by simpa using hoff)]
    refine ⟨?_, rfl, rfl, rfl, ?_, ?_, ?_⟩
    · show drawCalls { s with
        events := s.events ++ [GLEvent.activeTexture s.pointer,
          GLEvent.bindTexture (s.getTex c.tex).glTex], ..} = s.drawCalls
      simp [drawCalls, List.filter_append, GLEvent.isDraw]
    · show (s.store.set c.tex _).length = s.store.length
      exact List.length_set _ _ _
    · show s.pointer + 1 = (insert c.tex B).card
      omega
    · intro u hu
      by_cases huc : u = c.tex
      · subst huc
        show ((s.store.set c.tex _).getD c.tex Texture.init).glBound = true ↔
          c.tex ∈ insert c.tex B
        rw [Sol.getD_set_eq _ _ _ _ htex]
        simp
      · show ((s.store.set c.tex _).getD u Texture.init).glBound = true ↔
          u ∈ insert c.tex B
        rw [Sol.getD_set_ne _ _ _ (fun hh => huc hh.symm)]
        rw [Finset.mem_insert]
        constructor
        · intro hg
          exact Or.inr ((hB u hu).mp hg)
        · intro hg
          rcases hg with hg | hg
          · exact absurd hg huc
          · exact (hB u hu).mpr hg

/-- Running the scene draw calls of a frame under the batching
preconditions issues no draw call and buffers six vertices per command. -/
lemma runFrame_no_flush (cs : List DrawCmd) (s : RState) (B T : Finset Nat)
    (hB : ∀ u, u < s.store.length →
      (((s.getTex u).glBound = true) ↔ u ∈ B))
    (hp : s.pointer = B.card)
    (hBT : B ⊆ T)
    (hcsT : ∀ c ∈ cs, c.tex ∈ T)
    (hT : T.card ≤ s.maxTextures)
    (htex : ∀ c ∈ cs, c.tex < s.store.length)
    (hoff : s.offset + 6 * cs.length ≤ s.maxVerts) :
    (runFrame s cs).drawCalls = s.drawCalls ∧
    (runFrame s cs).offset = s.offset + 6 * cs.length := by
  induction cs generalizing s B with
  | nil => simp [runFrame]
  | cons c cs ih =>
    have hcT : c.tex ∈ T := hcsT c (by simp)
    have hcard : c.tex ∉ B → B.card < s.maxTextures := by
      intro hmem
      have hsub : insert c.tex B ⊆ T := Finset.insert_subset hcT hBT
      have := Finset.card_le_card hsub
      rw [Finset.card_insert_of_not_mem hmem] at this
      omega
    have hlen : 6 * (c :: cs).length = 6 * cs.length + 6 := by
      simp; omega
    have hstep := drawCmd_step s c B hB hp (htex c (by simp)) hcard
      (by omega)
    obtain ⟨hd, ho, hmv, hmt, hsl, hptr, hBnew⟩ := hstep
    have hrun : runFrame s (c :: cs) = runFrame (drawCmd s c) cs := rfl
    have hrec := ih (drawCmd s c) (insert c.tex B)
      (by rw [hsl]; exact hBnew)
      hptr
      (Finset.insert_subset hcT hBT)
      (fun c2 hc2 => hcsT c2 (by simp [hc2]))
      (by rw [hmt]; exact hT)
      (fun c2 hc2 => by rw [hsl]; exact htex c2 (by simp [hc2]))
      (by rw [ho, hmv]; omega)
    rw [hrun]
    refine ⟨by rw [hrec.1, hd], ?_⟩
    rw [hrec.2, ho]
    omega

end RState

/-- C1.  Batching correctness: starting from a freshly flushed state, any
sequence of scene draw calls that uses at most `maxUnits` distinct textures
and pushes at most `maxVerts` vertices in total triggers no draw call
during the sequence, and the end-of-frame `onPostDraw` issues exactly one
draw call for the whole frame. -/
theorem batching_single_flush (s : Sol.RState) (cs : List Sol.DrawCmd)
    (hoff0 : s.offset = 0) (hp0 : s.pointer = 0)
    (hfresh : ∀ u, u < s.store.length → (s.getTex u).glBound = false)
    (htex : ∀ c ∈ cs, c.tex < s.store.length)
    (hdistinct : ((cs.map Sol.DrawCmd.tex).toFinset).card ≤ s.maxTextures)
    (hverts : 6 * cs.length ≤ s.maxVerts) :
    (Sol.runFrame s cs).drawCalls = s.drawCalls ∧
    ((Sol.runFrame s cs).onPostDraw).drawCalls = s.drawCalls + 1 := by
  have hmain := Sol.RState.runFrame_no_flush cs s ∅
    ((cs.map Sol.DrawCmd.tex).toFinset)
    (fun u hu => by
      rw [hfresh u hu]
      simp)
    (by simpa using hp0)
    (Finset.empty_subset _)
    (fun c hc => by
      simp only [List.mem_toFinset, List.mem_map]
      exact ⟨c, hc, rfl⟩)
    hdistinct
    htex
    (by omega)
  refine ⟨hmain.1, ?_⟩
  show (Sol.runFrame s cs).vbFlush.drawCalls = s.drawCalls + 1
  rw [Sol.RState.drawCalls_vbFlush, hmain.1]

/-- Witness for C1: one draw command, one texture, capacity one quad. -/
theorem batching_single_flush_witness :
    (Sol.RState.onPostDraw
      (Sol.runFrame
        { store := [{ Sol.Texture.init with glTex := some 1 }],
          glReturnTex := none, glReturnUnit := 0, maxVerts := 6,
          offset := 0, verts := [], maxTextures := 1, pointer := 0,
          boundTextures := [0], id := 0, width := 1, height := 1,
          events := [] }
        [⟨0, 0, 0, 1, 1, 0, 0, 1, 1⟩])).drawCalls = 0 + 1 := by
  have h := batching_single_flush
    { store := [{ Sol.Texture.init with glTex := some 1 }],
      glReturnTex := none, glReturnUnit := 0, maxVerts := 6,
      offset := 0, verts := [], maxTextures := 1, pointer := 0,
      boundTextures := [0], id := 0, width := 1, height := 1,
      events := [] }
    [⟨0, 0, 0, 1, 1, 0, 0, 1, 1⟩]
    rfl rfl (by decide) (by decide) (by decide) (by decide)
  simpa [Sol.RState.drawCalls] using h.2

/-! ### C6: shader parameter substitution — counting infrastructure -/

lemma countOcc_nil (pat : List Char) : countOcc pat [] = 0 := rfl

/-- An occurrence of a pattern inside a prefix-closed window: a prefix of
`xs ++ ys` that is no longer than `xs` is a prefix of `xs`. -/
lemma prefix_confine {pat xs ys : List Char} (h : pat <+: xs ++ ys)
    (hne : xs ≠ []) (hlast : ∀ a, xs.getLast? = some a → a ∉ pat) :
    pat <+: xs := by
  by_cases hl : pat.length ≤ xs.length
  · exact List.prefix_of_prefix_length_le h (List.prefix_append xs ys) hl
  · exfalso
    have hxp : xs <+: pat :=
      List.prefix_of_prefix_length_le (List.prefix_append xs ys) h
        (by omega)
    cases hx : xs.getLast? with
    | none => exact hne (List.getLast?_eq_none_iff.mp hx)
    | some a =>
      exact hlast a hx (hxp.subset (List.mem_of_mem_getLast? hx))

/-- Additivity of occurrence counting at a boundary whose left side ends in
a character that does not occur in the pattern. -/
lemma countOcc_append_split (pat xs ys : List Char)
    (hlast : ∀ a, xs.getLast? = some a → a ∉ pat) :
    countOcc pat (xs ++ ys) = countOcc pat xs + countOcc pat ys := by
  induction xs with
  | nil => simp [countOcc_nil]
  | cons x xs ih =>
    have hiff : pat.isPrefixOf (x :: xs ++ ys) = pat.isPrefixOf (x :: xs) := by
      by_cases hp : pat.isPrefixOf (x :: xs) = true
      · rw [hp]
        rw [List.isPrefixOf_iff_prefix] at hp ⊢
        exact hp.trans (List.prefix_append _ _)
      · rw [Bool.eq_false_iff.mpr hp]
        rw [Bool.eq_false_iff]
        intro hp2
        rw [List.isPrefixOf_iff_prefix] at hp2 hp
        exact hp (prefix_confine hp2 (by simp) hlast)
    have hlast' : ∀ a, xs.getLast? = some a → a ∉ pat := by
      intro a ha
      cases xs with
      | nil => cases ha
      | cons z zs => exact hlast a (by rw [List.getLast?_cons_cons]; exact ha)
    show (if pat.isPrefixOf (x :: (xs ++ ys)) then 1 else 0) +
        countOcc pat (xs ++ ys) = _
    rw [show (x :: (xs ++ ys)) = (x :: xs ++ ys) from rfl, hiff, ih hlast']
    show _ = (if pat.isPrefixOf (x :: xs) then 1 else 0) +
        countOcc pat xs + countOcc pat ys
    omega

/-- A pattern starting with a character that does not occur in `xs` has no
occurrence starting inside `xs`. -/
lemma countOcc_append_left_zero (pat : List Char) (c : Char) (pt : List Char)
    (hpat : pat = c :: pt) (xs ys : List Char) (hc : c ∉ xs) :
    countOcc pat (xs ++ ys) = countOcc pat ys := by
  induction xs with
  | nil => rfl
  | cons x xs ih =>
    have hcx : ¬ (c = x) := fun h => hc (h ▸ List.mem_cons_self x xs)
    have hc' : c ∉ xs := fun h => hc (List.mem_cons_of_mem x h)
    show (if pat.isPrefixOf (x :: (xs ++ ys)) then 1 else 0) +
        countOcc pat (xs ++ ys) = _
    rw [ih hc']
    have : pat.isPrefixOf (x :: (xs ++ ys)) = false := by
      rw [hpat]
      simp only [List.isPrefixOf_cons₂]
      simp [beq_eq_false_iff_ne, hcx]
    rw [this]
    simp

/-- No occurrence at all when the pattern's first character is absent. -/
lemma countOcc_zero (pat : List Char) (c : Char) (pt : List Char)
    (hpat : pat = c :: pt) (s : List Char) (hc : c ∉ s) :
    countOcc pat s = 0 := by
  have h := countOcc_append_left_zero pat c pt hpat s [] hc
  rwa [List.append_nil] at h

lemma last_not_mem_of_concrete {xs pat : List Char} {c : Char}
    (hx : xs.getLast? = some c) (hc : c ∉ pat) :
    ∀ a, xs.getLast? = some a → a ∉ pat := by
  intro a ha
  rw [hx] at ha
  injection ha with h
  rwa [← h]

/-! Digit strings. -/

lemma digitCh_toNat (n : Nat) (h : n < 10) : (digitCh n).toNat = 48 + n := by
  interval_cases n <;> rfl

lemma natDigits_range (n : Nat) :
    ∀ ch ∈ natDigits n, 48 ≤ ch.toNat ∧ ch.toNat ≤ 57 := by
  induction n using Nat.strong_induction_on with
  | _ n ih =>
    rw [natDigits]
    split
    · intro ch hch
      rcases List.mem_singleton.mp hch with rfl
      rw [digitCh_toNat _ (by omega)]
      omega
    · intro ch hch
      rcases List.mem_append.mp hch with hch | hch
      · exact ih (n / 10) (Nat.div_lt_self (by omega) (by omega)) ch hch
      · rcases List.mem_singleton.mp hch with rfl
        rw [digitCh_toNat _ (Nat.mod_lt _ (by omega))]
        have := Nat.mod_lt n (show 0 < 10 by omega)
        omega

lemma natDigits_ne_nil (n : Nat) : natDigits n ≠ [] := by
  rw [natDigits]
  split
  · simp
  · simp

lemma not_mem_natDigits {c : Char} (hc : c.toNat < 48 ∨ 57 < c.toNat)
    (n : Nat) : c ∉ natDigits n := by
  intro h
  have := natDigits_range n c h
  omega

lemma t_not_mem_natDigits (n : Nat) : 't' ∉ natDigits n := by
  apply not_mem_natDigits
  right
  decide

lemma percent_not_mem_natDigits (n : Nat) : '%' ∉ natDigits n := by
  apply not_mem_natDigits
  left
  decide

/-! The injected `if/else if` chain, with the names the renderer uses. -/

lemma arm_getLast (max i : Nat) (out array id uv : List Char) :
    (armCode max out array id uv i).getLast? = some ';' := by
  rw [armCode, List.getLast?_append]
  rfl

/-- The branch arm for a middle unit (`0 < i`, `i < max - 1`), reassociated
around its two digit runs. -/
lemma armCode_eq_mid (max i : Nat) (h0 : 0 < i) (h1 : i < max - 1) :
    armCode max "texel".data "uTex".data "vTexID".data "vUV".data i =
      "else ".data ++ ("if(vTexID==".data ++ (natDigits i ++
        (".0)texel=texture2D(uTex[".data ++
          (natDigits i ++ "],vUV);".data)))) := by
  rw [armCode, if_pos h0, if_pos h1]
  simp only [List.append_assoc]
  rfl

/-- The branch arm for the first of several units (`i = 0 < max - 1`). -/
lemma armCode_eq_first (max i : Nat) (h0 : ¬ 0 < i) (h1 : i < max - 1) :
    armCode max "texel".data "uTex".data "vTexID".data "vUV".data i =
      "if(vTexID==".data ++ (natDigits i ++
        (".0)texel=texture2D(uTex[".data ++
          (natDigits i ++ "],vUV);".data))) := by
  rw [armCode, if_neg h0, if_pos h1]
  simp only [List.append_assoc, List.nil_append]
  rfl

/-- The branch arm for the final unit of several (`0 < i = max - 1`). -/
lemma armCode_eq_else (max i : Nat) (h0 : 0 < i) (h1 : ¬ i < max - 1) :
    armCode max "texel".data "uTex".data "vTexID".data "vUV".data i =
      "else ".data ++ ("texel=texture2D(uTex[".data ++
        (natDigits i ++ "],vUV);".data)) := by
  rw [armCode, if_pos h0, if_neg h1]
  simp only [List.append_assoc, List.nil_append]
  rfl

/-- The single branch arm when `max ≤ 1` (`i = 0`, no comparison). -/
lemma armCode_eq_single (max i : Nat) (h0 : ¬ 0 < i) (h1 : ¬ i < max - 1) :
    armCode max "texel".data "uTex".data "vTexID".data "vUV".data i =
      "texel=texture2D(uTex[".data ++ (natDigits i ++ "],vUV);".data) := by
  rw [armCode, if_neg h0, if_neg h1]
  simp only [List.append_assoc, List.nil_append]
  rfl

/-- The sampling chunk (with the `.0)` closer) holds one `texture2D(`. -/
lemma countOcc_sample_aux (i : Nat) :
    countOcc "texture2D(".data
      (".0)texel=texture2D(uTex[".data ++
        (natDigits i ++ "],vUV);".data)) = 1 := by
  rw [countOcc_append_split "texture2D(".data ".0)texel=texture2D(uTex[".data
    _ (last_not_mem_of_concrete rfl (by decide))]
  rw [countOcc_append_left_zero "texture2D(".data 't' "exture2D(".data rfl
    (natDigits i) _ (t_not_mem_natDigits i)]
  decide

/-- The sampling chunk holds one `texture2D(`. -/
lemma countOcc_sample (i : Nat) :
    countOcc "texture2D(".data
      ("texel=texture2D(uTex[".data ++
        (natDigits i ++ "],vUV);".data)) = 1 := by
  rw [countOcc_append_split "texture2D(".data "texel=texture2D(uTex[".data
    _ (last_not_mem_of_concrete rfl (by decide))]
  rw [countOcc_append_left_zero "texture2D(".data 't' "exture2D(".data rfl
    (natDigits i) _ (t_not_mem_natDigits i)]
  decide

/-- Each generated arm contains exactly one `texture2D(` sample. -/
lemma countOcc_arm (max i : Nat) :
    countOcc "texture2D(".data
      (armCode max "texel".data "uTex".data "vTexID".data "vUV".data i) =
      1 := by
  by_cases h0 : 0 < i <;> by_cases h1 : i < max - 1
  · rw [armCode_eq_mid max i h0 h1]
    rw [countOcc_append_split "texture2D(".data "else ".data _
      (last_not_mem_of_concrete rfl (by decide))]
    rw [countOcc_append_split "texture2D(".data "if(vTexID==".data _
      (last_not_mem_of_concrete rfl (by decide))]
    rw [countOcc_append_left_zero "texture2D(".data 't' "exture2D(".data rfl
      (natDigits i) _ (t_not_mem_natDigits i)]
    rw [countOcc_sample_aux i]
    decide
  · rw [armCode_eq_else max i h0 h1]
    rw [countOcc_append_split "texture2D(".data "else ".data _
      (last_not_mem_of_concrete rfl (by decide))]
    rw [countOcc_sample i]
    decide
  · rw [armCode_eq_first max i h0 h1]
    rw [countOcc_append_split "texture2D(".data "if(vTexID==".data _
      (last_not_mem_of_concrete rfl (by decide))]
    rw [countOcc_append_left_zero "texture2D(".data 't' "exture2D(".data rfl
      (natDigits i) _ (t_not_mem_natDigits i)]
    rw [countOcc_sample_aux i]
    decide
  · rw [armCode_eq_single max i h0 h1]
    rw [countOcc_sample i]

/-- Counting over a concatenation of chunks that each hold one occurrence
and end outside the pattern. -/
lemma countOcc_flatten_ones (pat : List Char) (L : List (List Char))
    (h1 : ∀ l ∈ L, countOcc pat l = 1)
    (hlast : ∀ l ∈ L, ∀ a, l.getLast? = some a → a ∉ pat) :
    countOcc pat L.flatten = L.length := by
  induction L with
  | nil => rfl
  | cons l L ih =>
    rw [List.flatten_cons]
    rw [countOcc_append_split pat l _ (hlast l (by simp))]
    rw [h1 l (by simp), ih (fun l2 h2 => h1 l2 (by simp [h2]))
      (fun l2 h2 => hlast l2 (by simp [h2]))]
    simp [Nat.add_comm]

/-- The generated chain contains exactly `max` sampling arms, one per unit
index in `[0, max)`. -/
lemma countOcc_inject (max : Nat) :
    countOcc "texture2D(".data
      (injectCode max "texel".data "uTex".data "vTexID".data "vUV".data) =
      max := by
  rw [injectCode]
  rw [countOcc_flatten_ones "texture2D(".data _ ?h1 ?hlast]
  · simp
  case h1 =>
    intro l hl
    rcases List.mem_map.mp hl with ⟨i, _, rfl⟩
    exact countOcc_arm max i
  case hlast =>
    intro l hl a ha
    rcases List.mem_map.mp hl with ⟨i, _, rfl⟩
    rw [arm_getLast] at ha
    injection ha with h
    rw [← h]
    decide

/-- For `max ≥ 1` the generated chain ends in the `;` of its last arm. -/
lemma inject_getLast (max : Nat) (h : 1 ≤ max) :
    (injectCode max "texel".data "uTex".data "vTexID".data
      "vUV".data).getLast? = some ';' := by
  obtain ⟨m, rfl⟩ : ∃ m, max = m + 1 := ⟨max - 1, by omega⟩
  rw [injectCode, List.range_succ, List.map_append, List.flatten_append]
  rw [List.getLast?_append]
  simp [arm_getLast]

/-- No branch arm contains a `%` character. -/
lemma percent_not_mem_arm (max i : Nat) :
    '%' ∉ armCode max "texel".data "uTex".data "vTexID".data "vUV".data i := by
  intro hmem
  rw [armCode] at hmem
  rcases List.mem_append.mp hmem with hmem | hc
  rcases List.mem_append.mp hmem with hmem | hc
  rcases List.mem_append.mp hmem with hmem | hc
  rcases List.mem_append.mp hmem with hmem | hc
  rcases List.mem_append.mp hmem with hmem | hc
  rcases List.mem_append.mp hmem with hmem | hc
  rcases List.mem_append.mp hmem with hmem | hc
  rcases List.mem_append.mp hmem with hmem | hc
  rcases List.mem_append.mp hmem with hmem | hc
  · split at hmem
    · exact absurd hmem (by decide)
    · exact absurd hmem (List.not_mem_nil _)
  · split at hc
    · rcases List.mem_append.mp hc with hc | hc
      rcases List.mem_append.mp hc with hc | hc
      rcases List.mem_append.mp hc with hc | hc
      · exact absurd hc (by decide)
      · exact absurd hc (by decide)
      · exact percent_not_mem_natDigits i hc
      · exact absurd hc (by decide)
    · exact absurd hc (List.not_mem_nil _)
  · exact absurd hc (by decide)
  · exact absurd hc (by decide)
  · exact absurd hc (by decide)
  · exact absurd hc (by decide)
  · exact percent_not_mem_natDigits i hc
  · exact absurd hc (by decide)
  · exact absurd hc (by decide)
  · exact absurd hc (by decide)

/-- The generated chain contains no `%` character. -/
lemma percent_not_mem_inject (max : Nat) :
    '%' ∉ injectCode max "texel".data "uTex".data "vTexID".data
      "vUV".data := by
  intro hmem
  rw [injectCode] at hmem
  rcases List.mem_flatten.mp hmem with ⟨l, hl, hc⟩
  rcases List.mem_map.mp hl with ⟨i, _, rfl⟩
  exact percent_not_mem_arm max i hc

/-! Substitution of the first occurrence. -/

/-- `replaceFirst` on a string split at its first pattern occurrence. -/
lemma replaceFirst_prepend (pre pat post rep : List Char) (c : Char)
    (pt : List Char) (hpat : pat = c :: pt)
    (hpre : ∀ i, i < pre.length →
      pat.isPrefixOf ((pre ++ pat).drop i) = false) :
    replaceFirst (pre ++ (pat ++ post)) pat rep = pre ++ (rep ++ post) := by
  induction pre with
  | nil =>
    simp only [List.nil_append]
    rw [hpat]
    show replaceFirst (c :: (pt ++ post)) (c :: pt) rep = rep ++ post
    rw [replaceFirst]
    rw [if_pos ?hp]
    case hp =>
      rw [List.isPrefixOf_iff_prefix]
      exact List.prefix_append (c :: pt) post
    show rep ++ ((c :: pt) ++ post).drop (c :: pt).length = rep ++ post
    rw [List.drop_left]
  | cons x pre ih =>
    have h0 := hpre 0 (by simp)
    rw [List.drop_zero] at h0
    have hcond : pat.isPrefixOf (x :: (pre ++ (pat ++ post))) = false := by
      rw [Bool.eq_false_iff]
      intro hp
      rw [List.isPrefixOf_iff_prefix] at hp
      have hassoc : x :: (pre ++ (pat ++ post)) =
          ((x :: pre) ++ pat) ++ post := by
        simp [List.append_assoc]
      rw [hassoc] at hp
      have hconf : pat <+: (x :: pre) ++ pat :=
        List.prefix_of_prefix_length_le hp (List.prefix_append _ _)
          (by simp; omega)
      rw [Bool.eq_false_iff] at h0
      exact h0 (List.isPrefixOf_iff_prefix.mpr hconf)
    show replaceFirst (x :: (pre ++ (pat ++ post))) pat rep = _
    rw [replaceFirst, hcond]
    simp only [Bool.false_eq_true, if_false]
    rw [ih ?hpre2]
    case hpre2 =>
      intro i hi
      exact hpre (i + 1) (by simpa using Nat.succ_lt_succ hi)
    rfl

/-- `replaceFirst` when the pattern's first character is absent from the
part before the occurrence. -/
lemma replaceFirst_prepend_of_not_mem (pre pat post rep : List Char)
    (c : Char) (pt : List Char) (hpat : pat = c :: pt) (hpre : c ∉ pre) :
    replaceFirst (pre ++ (pat ++ post)) pat rep = pre ++ (rep ++ post) := by
  apply replaceFirst_prepend pre pat post rep c pt hpat
  intro i hi
  rw [Bool.eq_false_iff]
  intro hp
  rw [List.isPrefixOf_iff_prefix] at hp
  rw [List.drop_append_of_le_length (by omega)] at hp
  obtain ⟨d, dt, hd⟩ : ∃ d dt, pre.drop i = d :: dt := by
    cases hdp : pre.drop i with
    | nil =>
      exfalso
      have := congrArg List.length hdp
      simp only [List.length_drop, List.length_nil] at this
      omega
    | cons d dt => exact ⟨d, dt, rfl⟩
  rw [hd, hpat] at hp
  rcases hp with ⟨k, hk⟩
  have hcd : c = d := by
    have hk2 : c :: (pt ++ k) = d :: (dt ++ (c :: pt)) := hk
    injection hk2 with h1
  apply hpre
  have hdmem : d ∈ pre.drop i := by rw [hd]; simp
  exact hcd ▸ List.drop_subset i pre hdmem

set_option maxRecDepth 8192 in
/-- The bundled fragment template, split at its two markers. -/
lemma mainFrag_split :
    mainFrag = fragPre ++ ("%MAX_TEXTURES%".data ++
      (fragMid ++ ("%GET_TEXEL%".data ++ fragPost))) := by
  rfl

/-- The parsed fragment source, as the template with both substitutions
carried out. -/
lemma mainFragSrc_eq (max : Nat) :
    mainFragSrc max =
      fragPre ++ (natDigits max ++ (fragMid ++
        (injectCode max "texel".data "uTex".data "vTexID".data "vUV".data ++
          fragPost))) := by
  rw [mainFragSrc, parseShader, mainFrag_split]
  rw [replaceFirst_prepend fragPre "%MAX_TEXTURES%".data _ _ '%'
    "MAX_TEXTURES%".data rfl (by decide)]
  have hassoc : fragPre ++ (natDigits max ++ (fragMid ++
      ("%GET_TEXEL%".data ++ fragPost))) =
      (fragPre ++ (natDigits max ++ fragMid)) ++
        ("%GET_TEXEL%".data ++ fragPost) := by
    simp [List.append_assoc]
  rw [hassoc]
  rw [replaceFirst_prepend_of_not_mem _ "%GET_TEXEL%".data _ _ '%'
    "GET_TEXEL%".data rfl ?hmem]
  case hmem =>
    intro h
    rcases List.mem_append.mp h with h | h
    · exact absurd h (by decide)
    rcases List.mem_append.mp h with h | h
    · exact percent_not_mem_natDigits max h
    · exact absurd h (by decide)
  simp [List.append_assoc]

/-- C6.  For every `max ≥ 1`, the fragment source generated by
`parseShader` on the bundled template contains exactly `max`
texture-sampling branch arms (one `texture2D(` sample per unit index in
`[0, max)`) and contains neither the `%MAX_TEXTURES%` nor the
`%GET_TEXEL%` substitution marker; in particular `max = 3` yields exactly
3 arms. -/
theorem parseShader_arms_markers (max : Nat) (hmax : 1 ≤ max) :
    Sol.countOcc "texture2D(".data (Sol.mainFragSrc max) = max ∧
    Sol.countOcc "%MAX_TEXTURES%".data (Sol.mainFragSrc max) = 0 ∧
    Sol.countOcc "%GET_TEXEL%".data (Sol.mainFragSrc max) = 0 := by
  have hsrc := mainFragSrc_eq max
  have hnot : '%' ∉ Sol.mainFragSrc max := by
    rw [hsrc]
    intro h
    rcases List.mem_append.mp h with h | h
    · exact absurd h (by decide)
    rcases List.mem_append.mp h with h | h
    · exact percent_not_mem_natDigits max h
    rcases List.mem_append.mp h with h | h
    · exact absurd h (by decide)
    rcases List.mem_append.mp h with h | h
    · exact percent_not_mem_inject max h
    · exact absurd h (by decide)
  refine ⟨?_, ?_, ?_⟩
  · rw [hsrc]
    rw [countOcc_append_split "texture2D(".data fragPre _
      (last_not_mem_of_concrete rfl (by decide))]
    rw [countOcc_append_left_zero "texture2D(".data 't' "exture2D(".data rfl
      (natDigits max) _ (t_not_mem_natDigits max)]
    rw [countOcc_append_split "texture2D(".data fragMid _
      (last_not_mem_of_concrete rfl (by decide))]
    rw [countOcc_append_split "texture2D(".data _ fragPost
      (last_not_mem_of_concrete (inject_getLast max hmax) (by decide))]
    rw [countOcc_inject max]
    have hA : Sol.countOcc "texture2D(".data fragPre = 0 := by decide
    have hM : Sol.countOcc "texture2D(".data fragMid = 0 := by decide
    have hP : Sol.countOcc "texture2D(".data fragPost = 0 := by decide
    omega
  · exact countOcc_zero _ '%' "MAX_TEXTURES%".data rfl _ hnot
  · exact countOcc_zero _ '%' "GET_TEXEL%".data rfl _ hnot

/-- Witness for C6 at `max = 3`: exactly three branch arms, no markers. -/
theorem parseShader_arms_markers_witness :
    Sol.countOcc "texture2D(".data (Sol.mainFragSrc 3) = 3 ∧
    Sol.countOcc "%MAX_TEXTURES%".data (Sol.mainFragSrc 3) = 0 ∧
    Sol.countOcc "%GET_TEXEL%".data (Sol.mainFragSrc 3) = 0 :=
  parseShader_arms_markers 3 (by decide)

end Sol
